import Mathlib

/-!
# Verification of the MCP Session Client (`src/mcpclient/mcpclient.py`)

A shallow embedding of the single component of the repository, the
`MCPClient` class.  Python values are modelled by plain Lean data:

* `dict[str, str]` headers become association lists `List (String × String)`;
* `ssl.SSLContext` keeps only the two fields the code touches
  (`check_hostname`, `verify_mode`);
* `httpx` client construction is modelled by the record of keyword
  arguments the code assembles (`HttpxClient`);
* the network is an abstract function from a request to a response
  (`Net`), so that the client's behaviour can be stated for every
  possible remote server;
* Python methods become explicit state-passing functions
  `MCPClient → … → MCPClient × result`: the returned `MCPClient` is the
  value of `self` after the call, threaded through every statement of
  the body (the bodies contain no assignment to `self`, and the
  embedding records that fact);
* context managers (`with` / `async with`) are modelled by an explicit
  event trace: the events emitted by a call list, in order, the opening
  of the underlying resource, the requests made on it, and its closing,
  on every exit path, which is exactly the guarantee of the construct.
-/

/-- `ssl.VerifyMode` — only the two values the code mentions. -/
inductive VerifyMode where
  | CERT_REQUIRED
  | CERT_NONE
deriving DecidableEq

/-- The part of `ssl.SSLContext` the code reads or writes. -/
structure SSLContext where
  check_hostname : Bool
  verify_mode : VerifyMode
deriving DecidableEq

/-- `ssl.create_default_context()`: hostname checking on, certificates required. -/
def ssl_create_default_context : SSLContext :=
  { check_hostname := true, verify_mode := VerifyMode.CERT_REQUIRED }

/-- `httpx.Timeout` — a wrapper around the configured number of seconds. -/
structure Timeout where
  seconds : Rat
deriving DecidableEq

/-- An `httpx.Auth` handler, kept abstract (the code only passes it through). -/
structure Auth where
  scheme : String
deriving DecidableEq

/-- The keyword arguments `create_httpx_client_with_ssl` assembles and hands to
`httpx.AsyncClient` / `httpx.Client`.  `verify = none` means the `verify`
keyword was not set, so the library's default (full verification) applies. -/
structure HttpxClient where
  isAsync : Bool
  follow_redirects : Bool
  verify : Option SSLContext
  timeout : Timeout
  headers : Option (List (String × String))
  auth : Option Auth
deriving DecidableEq

/-- An `httpx.Response`: status code and body text. -/
structure Response where
  status_code : Nat
  text : String
deriving DecidableEq

/-- The error taxonomy of the specification (§7). -/
inductive McpError where
  | configuration (msg : String)
  | transport (msg : String)
  | protocolFailure (msg : String)
  | scenarioFailure (msg : String)
deriving DecidableEq

/-- The outcome of an awaited Python computation: a value, a raised error, or
a cancellation of the surrounding task. -/
inductive Outcome (α : Type) where
  | ok (a : α)
  | error (e : McpError)
  | cancelled
deriving DecidableEq

/-- An `mcp.types.Tool` descriptor: name, description, input schema. -/
structure Tool where
  name : String
  description : Option String
  inputSchema : String
deriving DecidableEq

/-- The result object of `session.list_tools()`, carrying the server's tools
in the order the server returned them. -/
structure ListToolsResult where
  tools : List Tool
deriving DecidableEq

/-- The behaviour of the remote MCP session, as observed through
`mcp.ClientSession`: what `await session.initialize()` does, and what
`await session.list_tools()` returns.  A value of this type stands for one
concrete remote server; theorems quantify over all of them. -/
structure Session where
  initResult : Outcome Unit
  list_tools : Unit → Outcome ListToolsResult

/-- The synchronous HTTP network: a GET request (url, headers) to a response
or a transport error. -/
def Net : Type := String → List (String × String) → Except McpError Response

/-- The `MCPClient` instance: the four constructor arguments plus the derived
`headers` dictionary, all set in `__init__` and never written again. -/
structure MCPClient where
  base_url : String
  api_key : String
  category : Option String
  verify_tls : Bool
  headers : List (String × String)
deriving DecidableEq

/-- `MCPClient.__init__`: stores the configuration and derives the Bearer
header.  The source performs no validation, no network activity and cannot
fail, so the embedding is a total function. -/
def MCPClient.init (base_url : String) (api_key : String)
    (category : Option String) (verify_tls : Bool) : MCPClient :=
  { base_url := base_url
    api_key := api_key
    category := category
    verify_tls := verify_tls
    headers := [("Authorization", "Bearer " ++ api_key)] }

/-- Python truthiness of an `str | None` value: `None` and `""` are falsy. -/
def pyTruthy : Option String → Bool
  | none => false
  | some s => !s.isEmpty

/-- `MCPClient.create_httpx_client_with_ssl`: builds the `kwargs` record
exactly as the source does and returns the constructed client together with
the unchanged `self`. -/
def MCPClient.create_httpx_client_with_ssl (self : MCPClient)
    (headers : Option (List (String × String))) (timeout : Option Timeout)
    (auth : Option Auth) (async_client : Bool) : MCPClient × HttpxClient :=
  -- kwargs = {"follow_redirects": True}
  -- if not self.verify_tls: build a default context, disable hostname
  -- checking and certificate verification, set kwargs["verify"]
  let verify : Option SSLContext :=
    if !self.verify_tls then
      let ssl_context := ssl_create_default_context
      let ssl_context := { ssl_context with check_hostname := false }
      let ssl_context := { ssl_context with verify_mode := VerifyMode.CERT_NONE }
      some ssl_context
    else
      none
  -- kwargs["timeout"] = httpx.Timeout(30.0) when no timeout was supplied
  let timeout_kw : Timeout :=
    match timeout with
    | none => { seconds := 30 }
    | some t => t
  (self,
    { isAsync := async_client
      follow_redirects := true
      verify := verify
      timeout := timeout_kw
      headers := headers
      auth := auth })

/-- The record of the `streamablehttp_client(...)` call made by `get_client`:
the MCP endpoint url, the headers attached to it, and the factory that will
build every underlying httpx client of the transport. -/
structure TransportClient where
  url : String
  headers : List (String × String)
  httpx_client_factory :
    Option (List (String × String)) → Option Timeout → Option Auth → Bool →
      MCPClient × HttpxClient

/-- `MCPClient.get_client`: computes the MCP endpoint url from the current
configuration (`{base_url}/{category}/mcp` when `self.category` is truthy,
else `{base_url}/mcp`) and returns the streamable-HTTP transport record. -/
def MCPClient.get_client (self : MCPClient) : MCPClient × TransportClient :=
  let mcp_url : String :=
    if pyTruthy self.category then
      self.base_url ++ "/" ++ self.category.getD "" ++ "/mcp"
    else
      self.base_url ++ "/mcp"
  (self,
    { url := mcp_url
      headers := self.headers
      httpx_client_factory := fun h t a b =>
        self.create_httpx_client_with_ssl h t a b })

/-- Events of the synchronous `with … as client:` block of `health_check`. -/
inductive HttpEvent where
  | clientOpened (c : HttpxClient)
  | getRequest (url : String) (headers : List (String × String))
  | clientClosed
deriving DecidableEq

/-- The GET requests recorded in a trace, in order, with their headers. -/
def getRequests : List HttpEvent → List (String × List (String × String))
  | [] => []
  | HttpEvent.getRequest u h :: es => (u, h) :: getRequests es
  | _ :: es => getRequests es

/-- `MCPClient.health_check`: opens a synchronous httpx client carrying
`self.headers`, sends one GET to `{base_url}/api/v1/health`, and, by virtue
of the `with` block, closes the client before returning on both the success
and the failure path.  It returns the unchanged `self`, the raw response
(or propagated transport error), and the event trace of the call. -/
def MCPClient.health_check (self : MCPClient) (net : Net) :
    MCPClient × (Except McpError Response × List HttpEvent) :=
  let client := (self.create_httpx_client_with_ssl (some self.headers) none none false).2
  let url := self.base_url ++ "/api/v1/health"
  let request_headers := client.headers.getD []
  let response := net url request_headers
  (self,
    (response,
      [HttpEvent.clientOpened client,
       HttpEvent.getRequest url request_headers,
       HttpEvent.clientClosed]))

/-- Events of the two nested `async with` blocks of `run_a_scenario`:
the transport streams are opened, the `ClientSession` is opened on them and
its handshake runs, and on every exit path the session is closed first and
the transport after it. -/
inductive McpEvent where
  | transportOpened (url : String) (headers : List (String × String))
  | sessionOpened
  | sessionReady
  | sessionClosed
  | transportClosed
deriving DecidableEq

/-- `MCPClient.run_a_scenario`: opens the transport produced by
`get_client`, layers a `ClientSession` on its streams, awaits
`session.initialize()`, runs the caller's `scenario_func`, and — through the
nested `async with` blocks — closes the session and then the transport on
every exit path: normal return, an error raised by the handshake or the
scenario, or cancellation.  The scenario's own outcome is what propagates to
the caller.  Returns the unchanged `self`, the propagated outcome, and the
event trace of the call. -/
def MCPClient.run_a_scenario {α : Type} (self : MCPClient) (session : Session)
    (scenario_func : Session → Outcome α) :
    MCPClient × (Outcome α × List McpEvent) :=
  let transport := (self.get_client).2
  let opening := [McpEvent.transportOpened transport.url transport.headers,
                  McpEvent.sessionOpened]
  match session.initResult with
  | Outcome.ok _ =>
      let res := scenario_func session
      (self, (res,
        opening ++ [McpEvent.sessionReady, McpEvent.sessionClosed,
                    McpEvent.transportClosed]))
  | Outcome.error e =>
      (self, (Outcome.error e,
        opening ++ [McpEvent.sessionClosed, McpEvent.transportClosed]))
  | Outcome.cancelled =>
      (self, (Outcome.cancelled,
        opening ++ [McpEvent.sessionClosed, McpEvent.transportClosed]))

/-- The inner `scenario_func` of `get_tools`: one `session.list_tools()`
call, returning `tools.tools` — the server's descriptor list unchanged. -/
def get_tools_scenario (session : Session) : Outcome (List Tool) :=
  match session.list_tools () with
  | Outcome.ok tools => Outcome.ok tools.tools
  | Outcome.error e => Outcome.error e
  | Outcome.cancelled => Outcome.cancelled

/-- `MCPClient.get_tools`: `run_a_scenario` applied to the tool-listing
scenario. -/
def MCPClient.get_tools (self : MCPClient) (session : Session) :
    MCPClient × (Outcome (List Tool) × List McpEvent) :=
  self.run_a_scenario session get_tools_scenario

/-- The constructor as claim C3 describes it (NOT as the source implements
it): reject an empty `serverAddress` or an empty `credential` with a
`ConfigurationError`, succeed otherwise.  Used only to compare the claimed
behaviour with `MCPClient.init`. -/
def init_claimed (base_url : String) (api_key : String)
    (category : Option String) (verify_tls : Bool) : Except McpError MCPClient :=
  if base_url.isEmpty || api_key.isEmpty then
    Except.error (McpError.configuration "empty serverAddress or credential")
  else
    Except.ok (MCPClient.init base_url api_key category verify_tls)

/-! ## Concrete fixtures used by the witnesses and counterexamples -/

/-- A concrete tool descriptor named `a`. -/
def toolA : Tool := { name := "a", description := none, inputSchema := "" }

/-- A concrete tool descriptor named `b`. -/
def toolB : Tool := { name := "b", description := none, inputSchema := "" }

/-- A concrete tool descriptor named `c`. -/
def toolC : Tool := { name := "c", description := none, inputSchema := "" }

/-- A concrete configured client with a routing category. -/
def clientW : MCPClient := MCPClient.init "https://h" "k" (some "job_management") false

/-- A concrete remote session whose handshake succeeds and which lists the
three tools `a`, `b`, `c` in that order. -/
def sessionOkW : Session :=
  { initResult := Outcome.ok ()
    list_tools := fun _ => Outcome.ok { tools := [toolA, toolB, toolC] } }

/-- A concrete scenario that raises a `ScenarioError`. -/
def failingScenario : Session → Outcome Unit :=
  fun _ => Outcome.error (McpError.scenarioFailure "boom")

/-! ## Theorems for the claims -/

/-- C1: on every exit path of `run_a_scenario` — normal return, an error
raised by the handshake or by the scenario, or cancellation — the event
trace ends with the session being closed and then the transport being
closed, in that order, before the call returns; and once the handshake has
succeeded, the outcome the caller observes is exactly the scenario's own
outcome (its return value, its original error, or its cancellation),
unchanged by the cleanup. -/
theorem run_a_scenario_cleanup_and_propagation {α : Type} (self : MCPClient)
    (session : Session) (scenario_func : Session → Outcome α) :
    (∃ pre, (self.run_a_scenario session scenario_func).2.2
        = pre ++ [McpEvent.sessionClosed, McpEvent.transportClosed])
    ∧ (session.initResult = Outcome.ok () →
        (self.run_a_scenario session scenario_func).2.1 = scenario_func session) := by
  unfold MCPClient.run_a_scenario
  cases h : session.initResult with
  | ok u =>
      refine ⟨⟨[McpEvent.transportOpened (self.get_client).2.url
          (self.get_client).2.headers, McpEvent.sessionOpened,
          McpEvent.sessionReady], rfl⟩, fun _ => rfl⟩
  | error e =>
      refine ⟨⟨[McpEvent.transportOpened (self.get_client).2.url
          (self.get_client).2.headers, McpEvent.sessionOpened], rfl⟩,
        fun hc => ?_⟩
      cases hc
  | cancelled =>
      refine ⟨⟨[McpEvent.transportOpened (self.get_client).2.url
          (self.get_client).2.headers, McpEvent.sessionOpened], rfl⟩,
        fun hc => ?_⟩
      cases hc

/-- Witness for C1 at a concrete input: a scenario that raises after the
handshake succeeded still yields a trace closing session then transport,
and the caller observes the original scenario error. -/
theorem run_a_scenario_cleanup_and_propagation_witness :
    (∃ pre, (clientW.run_a_scenario sessionOkW failingScenario).2.2
        = pre ++ [McpEvent.sessionClosed, McpEvent.transportClosed])
    ∧ (clientW.run_a_scenario sessionOkW failingScenario).2.1
        = Outcome.error (McpError.scenarioFailure "boom") := by
  refine ⟨(run_a_scenario_cleanup_and_propagation clientW sessionOkW failingScenario).1, ?_⟩
  exact ((run_a_scenario_cleanup_and_propagation clientW sessionOkW
    failingScenario).2 rfl).trans rfl

/-- Counterexample to C2 as stated: with the routing category set to the
empty string — a set category, not `None` — the endpoint the code computes
is `base_url ++ "/mcp"`, not `serverAddress + "/" + routingCategory + "/mcp"`
(which would be `"https://h//mcp"`). -/
theorem endpoint_claim_fails_on_empty_category :
    ((MCPClient.init "https://h" "k" (some "") false).get_client).2.url
        = "https://h/mcp"
    ∧ ((MCPClient.init "https://h" "k" (some "") false).get_client).2.url
        ≠ "https://h" ++ "/" ++ "" ++ "/mcp" := by
  decide

/-- C2 (amended): the Endpoint computed per call equals
`serverAddress + "/" + routingCategory + "/mcp"` when a non-empty routing
category is set, and `serverAddress + "/mcp"` when the routing category is
`None` or the empty string. -/
theorem get_client_endpoint (self : MCPClient) :
    (∀ c, self.category = some c → c ≠ "" →
      (self.get_client).2.url = self.base_url ++ "/" ++ c ++ "/mcp")
    ∧ (self.category = none →
      (self.get_client).2.url = self.base_url ++ "/mcp")
    ∧ (self.category = some "" →
      (self.get_client).2.url = self.base_url ++ "/mcp") := by
  refine ⟨fun c hc hne => ?_, fun hc => ?_, fun hc => ?_⟩
  · have he : c.isEmpty = false := by
      cases hi : c.isEmpty
      · rfl
      · exact absurd ((String.isEmpty_iff c).mp hi) hne
    simp [MCPClient.get_client, pyTruthy, hc, he]
  · simp [MCPClient.get_client, pyTruthy, hc]
  · simp [MCPClient.get_client, pyTruthy, hc]
    exact fun h => absurd h (by decide)

/-- Witness for C2 (amended) at a concrete input: a non-empty category is
spliced into the endpoint path. -/
theorem get_client_endpoint_witness :
    ((MCPClient.init "https://h" "k" (some "x") false).get_client).2.url
      = "https://h" ++ "/" ++ "x" ++ "/mcp" :=
  (get_client_endpoint (MCPClient.init "https://h" "k" (some "x") false)).1
    "x" rfl (by decide)

/-- Counterexample to C3 as stated: constructing a client with an empty
`serverAddress` does not fail — the source performs no validation, so
`MCPClient.init "" "k" none false` succeeds and returns a full
configuration value, where the claimed behaviour (`init_claimed`) demands a
`ConfigurationError`. -/
theorem configure_claim_fails_on_empty_address :
    MCPClient.init "" "k" none false
      = { base_url := "", api_key := "k", category := none, verify_tls := false,
          headers := [("Authorization", "Bearer k")] }
    ∧ init_claimed "" "k" none false
      = Except.error (McpError.configuration "empty serverAddress or credential") :=
  ⟨rfl, rfl⟩

/-- C3 (amended): construction is pure value construction: for every
`serverAddress` and `credential`, empty or not, it succeeds with no failure,
no validation and no network activity, storing the four arguments verbatim
and deriving only the Bearer header. -/
theorem init_total (b k : String) (c : Option String) (v : Bool) :
    MCPClient.init b k c v
      = { base_url := b, api_key := k, category := c, verify_tls := v,
          headers := [("Authorization", "Bearer " ++ k)] } := rfl

/-- C4: the Authorization header equals `"Bearer " + credential`; it is the
single header value stored at construction time, and that identical value is
what `get_client` attaches to the streaming transport and what the
`health_check` probe sends with its request. -/
theorem authorization_header (b k : String) (c : Option String) (v : Bool)
    (net : Net) :
    (MCPClient.init b k c v).headers = [("Authorization", "Bearer " ++ k)]
    ∧ ((MCPClient.init b k c v).get_client).2.headers
        = (MCPClient.init b k c v).headers
    ∧ getRequests ((MCPClient.init b k c v).health_check net).2.2
        = [((MCPClient.init b k c v).base_url ++ "/api/v1/health",
            (MCPClient.init b k c v).headers)] :=
  ⟨rfl, rfl, rfl⟩

/-- C5: every httpx client the Session Client constructs — including every
client produced by the factory `get_client` installs on the streaming
transport — has `verify` set to a default SSL context with hostname checking
off and certificate verification off when `verify_tls` is false, and has no
`verify` override at all (library default verification) when `verify_tls` is
true. -/
theorem tls_verification (self : MCPClient)
    (hd : Option (List (String × String))) (t : Option Timeout)
    (a : Option Auth) (b : Bool) :
    ((self.create_httpx_client_with_ssl hd t a b).2.verify
      = if self.verify_tls then none
        else some { check_hostname := false, verify_mode := VerifyMode.CERT_NONE })
    ∧ (self.get_client).2.httpx_client_factory
      = fun hd2 t2 a2 b2 => self.create_httpx_client_with_ssl hd2 t2 a2 b2 := by
  refine ⟨?_, rfl⟩
  cases hv : self.verify_tls <;>
    simp [MCPClient.create_httpx_client_with_ssl, hv, ssl_create_default_context]

/-- C6: `health_check` sends exactly one GET, to the fixed path
`{base_url}/api/v1/health`, carrying the client's Authorization headers;
it returns the raw remote response (the network's answer unchanged, whatever
the status code — no retries); and the trace of every call, succeeding or
failing, ends with the connection being closed before the call returns. -/
theorem health_check_behaviour (self : MCPClient) (net : Net) :
    ((self.health_check net).2.1
        = net (self.base_url ++ "/api/v1/health") self.headers)
    ∧ getRequests (self.health_check net).2.2
        = [(self.base_url ++ "/api/v1/health", self.headers)]
    ∧ (self.health_check net).2.2.getLast? = some HttpEvent.clientClosed :=
  ⟨rfl, rfl, rfl⟩

/-- C7: every httpx client the Session Client constructs follows redirects
automatically, and its per-request timeout is the supplied value when one is
given and 30 seconds otherwise. -/
theorem transport_redirects_and_timeout (self : MCPClient)
    (hd : Option (List (String × String))) (t : Option Timeout)
    (a : Option Auth) (b : Bool) :
    ((self.create_httpx_client_with_ssl hd t a b).2.follow_redirects = true)
    ∧ ((self.create_httpx_client_with_ssl hd t a b).2.timeout
        = t.getD { seconds := 30 }) := by
  refine ⟨rfl, ?_⟩
  cases t <;> rfl

/-- C8: no operation mutates the configuration: the `self` value returned by
`create_httpx_client_with_ssl`, `get_client`, `health_check`,
`run_a_scenario` and `get_tools` is exactly the `self` the call started
with, so `base_url`, `api_key`, `category`, `verify_tls` and the derived
headers are all identical before and after every call. -/
theorem config_never_mutated (α : Type) (self : MCPClient)
    (hd : Option (List (String × String))) (t : Option Timeout)
    (a : Option Auth) (b : Bool) (net : Net) (session : Session)
    (scenario_func : Session → Outcome α) :
    (self.create_httpx_client_with_ssl hd t a b).1 = self
    ∧ (self.get_client).1 = self
    ∧ (self.health_check net).1 = self
    ∧ (self.run_a_scenario session scenario_func).1 = self
    ∧ (self.get_tools session).1 = self := by
  have hr : ∀ (β : Type) (f : Session → Outcome β),
      (self.run_a_scenario session f).1 = self := by
    intro β f
    unfold MCPClient.run_a_scenario
    cases session.initResult <;> rfl
  exact ⟨rfl, rfl, rfl, hr α scenario_func, hr (List Tool) get_tools_scenario⟩

/-- C9: `get_tools` is exactly `run_a_scenario` applied to the tool-listing
scenario, and when the handshake succeeds and the server answers the single
`list_tools` call with a list of descriptors, `get_tools` yields exactly
that list, in the server's order, with no additional semantics. -/
theorem get_tools_is_run_a_scenario (self : MCPClient) (session : Session) :
    (self.get_tools session = self.run_a_scenario session get_tools_scenario)
    ∧ (∀ ts, session.initResult = Outcome.ok () →
        session.list_tools () = Outcome.ok { tools := ts } →
        (self.get_tools session).2.1 = Outcome.ok ts) := by
  refine ⟨rfl, fun ts hinit hlist => ?_⟩
  unfold MCPClient.get_tools MCPClient.run_a_scenario
  rw [hinit]
  simp [get_tools_scenario, hlist]

/-- Witness for C9 at a concrete input: against a session listing the three
descriptors named `a`, `b`, `c`, `get_tools` yields exactly those three
descriptors in that order. -/
theorem get_tools_is_run_a_scenario_witness :
    (clientW.get_tools sessionOkW).2.1 = Outcome.ok [toolA, toolB, toolC] :=
  (get_tools_is_run_a_scenario clientW sessionOkW).2 [toolA, toolB, toolC] rfl rfl

/-- C10: when the configured routing category is the empty string, the
computed endpoint is `base_url ++ "/mcp"` — the empty string is falsy in the
guard `if self.category`, so it is treated like an absent category and no
empty path segment is produced. -/
theorem empty_category_same_as_none (self : MCPClient)
    (h : self.category = some "") :
    (self.get_client).2.url = self.base_url ++ "/mcp" := by
  simp [MCPClient.get_client, pyTruthy, h]
  exact fun hc => absurd hc (by decide)

/-- Witness for C10 at a concrete input. -/
theorem empty_category_same_as_none_witness :
    ((MCPClient.init "https://h" "k" (some "") false).get_client).2.url
      = "https://h" ++ "/mcp" :=
  empty_category_same_as_none (MCPClient.init "https://h" "k" (some "") false) rfl
